import Mathlib

/-!
# Verification of the weather ETL pipeline core

Shallow embedding of the three-stage pipeline of this repository:

* `src/src/transform.py` — the Normalizer (`clean_weather_df`),
* `src/validate_outputs.py` — the Validator (`coerce_dtypes`, `run_checks`, `main`),
* `src/src/load.py` — the Incremental Loader (`normalize`, `fetch_existing_keys`, `main`),

together with the static schema of `src/schema_config.py` and the storage model of
`src/src/models.py`.

Modelling conventions:

* A pandas cell is a `JVal`: null (`pd.NA`/`NaN`), a number, a string whose text parses
  as a number (`numStr`), or a string with no numeric parse (`str`).  `pd.to_numeric(...,
  errors="coerce")` is `toNumeric`, `astype("string")` is `asString`.  Character-level
  numeric parsing is abstracted into the `numStr`/`str` tag.
* Floats are modelled as `ℚ`; `Series.round(2)` is round-half-to-even at two decimals
  (`round2`).  The binary-float representation of ties is not modelled; no claim input
  is a tie.
* A dataframe is a list of row records plus, where column presence matters, explicit
  column information.  Column-level operations (rename, fill of absent columns) are
  resolved in the row record types, as noted at each definition.
* `pd.to_datetime(ts, unit="s", utc=True, errors="coerce")` derives a UTC datetime that
  denotes the same instant as its unix-second input; the model carries that instant
  (`Option ℚ`, `none` for NaT).
* Process exit (`sys.exit`) and raised exceptions are `Except`; writing files and
  printing are modelled by the values the code would write or print.
-/

/-- One pandas cell as seen by the pipeline: null, a number, a numeric string
(a string whose text `pd.to_numeric` can parse, carrying its text and its value),
or a non-numeric string. -/
inductive JVal where
  | null : JVal
  | num (q : ℚ) : JVal
  | numStr (s : String) (q : ℚ) : JVal
  | str (s : String) : JVal
deriving DecidableEq, Repr

/-- `pd.to_numeric(x, errors="coerce")` on one cell: numbers and numeric strings
become their value, everything else becomes null. -/
def toNumeric : JVal → Option ℚ
  | .null => none
  | .num q => some q
  | .numStr _ q => some q
  | .str _ => none

/-- `astype("string")` on one cell: null stays null, strings keep their text,
numbers render as text. -/
def asString : JVal → Option String
  | .null => none
  | .num q => some (toString q)
  | .numStr s _ => some s
  | .str s => some s

/-- Round-half-to-even to an integer (the rounding used by `Series.round`). -/
def roundHalfEven (x : ℚ) : ℤ :=
  let f : ℤ := ⌊x⌋
  let r : ℚ := x - f
  if r < 1/2 then f
  else if r > 1/2 then f + 1
  else if f % 2 = 0 then f else f + 1

/-- `Series.round(2)`: round to two decimal places. -/
def round2 (q : ℚ) : ℚ := (roundHalfEven (100 * q) : ℚ) / 100

/-!
## Normalizer (`src/src/transform.py`, `clean_weather_df`)

The function first renames `temp`→`temperature`, `humidity`→`humidity_percent` and
injects a null column for each absent canonical column.  `RawRec` is one input row
after those two column-level steps: each of the five canonical columns is present,
with `.null` cells where the column was absent.  `city` is untouched by every
per-column step, so it is carried as the string-or-null it holds in the raw records.
-/

/-- One raw input row of `clean_weather_df`, after the column rename
(`temp`→`temperature`, `humidity`→`humidity_percent`) and the fill of absent
canonical columns with `pd.NA`. -/
structure RawRec where
  city : Option String
  temperature : JVal
  humidity_percent : JVal
  timestamp : JVal
  fetched_at : JVal
deriving DecidableEq, Repr

/-- One canonical output row of `clean_weather_df`, in the output column order
`city, temperature, humidity_percent, timestamp, timestamp_iso, fetched_at,
fetched_at_iso`.  The ISO mirrors carry the instant they denote. -/
structure CleanRec where
  city : Option String
  temperature : Option ℚ
  humidity_percent : Option ℚ
  timestamp : Option ℚ
  timestamp_iso : Option ℚ
  fetched_at : Option ℚ
  fetched_at_iso : Option ℚ
deriving DecidableEq, Repr

/-- The per-row cell processing of `clean_weather_df`: coerce `temperature` to numeric
and round to 2 decimals; coerce `humidity_percent` to numeric and clip into `[0,100]`
(`clip(lower=0, upper=100)`, nulls stay null); coerce the two timestamp columns to
numeric and derive their UTC datetime mirrors (null input gives a null mirror). -/
def cleanRow (r : RawRec) : CleanRec :=
  let ts := toNumeric r.timestamp
  let fa := toNumeric r.fetched_at
  { city := r.city
    temperature := (toNumeric r.temperature).map round2
    humidity_percent := (toNumeric r.humidity_percent).map (fun q => min (max q 0) 100)
    timestamp := ts
    timestamp_iso := ts
    fetched_at := fa
    fetched_at_iso := fa }

/-- Worker for `drop_duplicates`: drop each row whose key is in `seen` (it appeared on
an earlier row), keep the rest, extending `seen` as rows are kept. -/
def dedupKeyedAux {α κ : Type} (f : α → κ) [DecidableEq κ] (seen : List κ) :
    List α → List α
  | [] => []
  | a :: l =>
    if f a ∈ seen then dedupKeyedAux f seen l
    else a :: dedupKeyedAux f (f a :: seen) l

/-- `drop_duplicates(subset=keys)` with the default `keep="first"`: keep exactly the rows
whose key did not appear on an earlier row.  pandas compares NA cells as equal here, as
does the `Option`-valued key. -/
def dedupKeyed {α κ : Type} (f : α → κ) [DecidableEq κ] (l : List α) : List α :=
  dedupKeyedAux f [] l

/-- The business key of a canonical row, ordered the way
`sort_values(["city", "timestamp"])` orders rows: lexicographically by city then
timestamp, nulls last in each component (`na_position="last"`). -/
abbrev CKey := Lex (WithTop String × WithTop ℚ)

/-- Send a nullable cell into `WithTop`, nulls on top (sorted last). -/
def optTop {α : Type} : Option α → WithTop α
  | none => ⊤
  | some a => (a : WithTop α)

/-- The `(city, timestamp)` key of a canonical row. -/
def ckey (c : CleanRec) : CKey := toLex (optTop c.city, optTop c.timestamp)

/-- The row ordering used by the final `sort_values(by=["city", "timestamp"])`. -/
def cleanLE (a b : CleanRec) : Prop := ckey a ≤ ckey b

instance : DecidableRel cleanLE := fun a b => inferInstanceAs (Decidable (ckey a ≤ ckey b))

instance : IsTotal CleanRec cleanLE := ⟨fun a b => le_total (ckey a) (ckey b)⟩

instance : IsTrans CleanRec cleanLE := ⟨fun _ _ _ h h' => le_trans h h'⟩

/-- `clean_weather_df` on a table of raw rows: per-cell normalization, then
`drop_duplicates(subset=["city", "timestamp"])` (keep first), then the deterministic
`sort_values(by=["city", "timestamp"])`. -/
def cleanWeatherDf (rows : List RawRec) : List CleanRec :=
  List.insertionSort cleanLE (dedupKeyed ckey (rows.map cleanRow))

/-!
## Validator (`src/validate_outputs.py` with `src/schema_config.py`)

The validated table is modelled on the five schema columns; the derived ISO mirror
columns of the serialized canonical table are not consulted by any check or coercion
and are omitted.  `main`'s file writes (report, re-saved normalized tables) are
modelled by the returned values; `sys.exit` by the returned exit code.
-/

/-- `schema_config.EXPECTED_DTYPES`. -/
def EXPECTED_DTYPES : List (String × String) :=
  [("city", "string"), ("temperature", "float64"), ("humidity_percent", "int64"),
   ("timestamp", "int64"), ("fetched_at", "int64")]

/-- `schema_config.REQUIRED_COLUMNS` (the keys of `EXPECTED_DTYPES`). -/
def REQUIRED_COLUMNS : List String := EXPECTED_DTYPES.map (·.1)

/-- `schema_config.RANGES`: column, lower bound, upper bound. -/
def RANGES : List (String × ℚ × ℚ) :=
  [("temperature", -60, 60), ("humidity_percent", 0, 100)]

/-- `schema_config.UNIQUE_COMBO`. -/
def UNIQUE_COMBO : List String := ["city", "timestamp"]

/-- `schema_config.NON_NULL` (all required columns). -/
def NON_NULL : List String := REQUIRED_COLUMNS

/-- One raw row of a table handed to the Validator (CSV cells are all strings,
parquet cells keep their types; both are `JVal`s). -/
structure VRawRow where
  city : JVal
  temperature : JVal
  humidity_percent : JVal
  timestamp : JVal
  fetched_at : JVal
deriving DecidableEq, Repr

/-- A table handed to the Validator: which of the five schema columns are present,
plus the rows (a cell is only meaningful when its column is present). -/
structure VDF where
  hasCity : Bool
  hasTemperature : Bool
  hasHumidity : Bool
  hasTimestamp : Bool
  hasFetchedAt : Bool
  rows : List VRawRow
deriving Repr

/-- The required columns present in the table, in schema order. -/
def vCols (df : VDF) : List String :=
  (if df.hasCity then ["city"] else []) ++
  (if df.hasTemperature then ["temperature"] else []) ++
  (if df.hasHumidity then ["humidity_percent"] else []) ++
  (if df.hasTimestamp then ["timestamp"] else []) ++
  (if df.hasFetchedAt then ["fetched_at"] else [])

/-- `missing = [c for c in REQUIRED_COLUMNS if c not in df.columns]` in
`coerce_dtypes`. -/
def vMissing (df : VDF) : List String :=
  REQUIRED_COLUMNS.filter (fun c => decide (c ∉ vCols df))

/-- Fatal errors of `coerce_dtypes`: the `ValueError` raised for missing required
columns, and the unsafe-cast error `astype("Int64")` raises when a coerced value is a
non-integral float. -/
inductive VError where
  | missingRequired (cols : List String)
  | nonIntegralCast (col : String)
deriving DecidableEq, Repr

/-- One row of the coerced table: `city` is `string`, `temperature` is `float64`,
the three integer columns are nullable `Int64`. -/
structure VRow where
  city : Option String
  temperature : Option ℚ
  humidity_percent : Option ℤ
  timestamp : Option ℤ
  fetched_at : Option ℤ
deriving DecidableEq, Repr

/-- Whether `astype("Int64")` on a column of coerced numeric cells raises: it does
exactly when some non-null value is a non-integral float. -/
def badInt64 (vals : List (Option ℚ)) : Bool :=
  vals.any (fun v => match v with | some q => decide (q.den ≠ 1) | none => false)

/-- The integer value of a coerced cell (used only after `badInt64` ruled out
non-integral values, so `.num` is the exact value). -/
def toInt64 (v : JVal) : Option ℤ := (toNumeric v).map (·.num)

/-- The per-row effect of `coerce_dtypes` once all casts are known to succeed. -/
def coerceVRow (r : VRawRow) : VRow :=
  { city := asString r.city
    temperature := toNumeric r.temperature
    humidity_percent := toInt64 r.humidity_percent
    timestamp := toInt64 r.timestamp
    fetched_at := toInt64 r.fetched_at }

/-- `coerce_dtypes`: raise for missing required columns; coerce `city` to string and
the numeric columns to numeric, casting the integer columns to `Int64` column by
column in `EXPECTED_DTYPES` order (`humidity_percent`, then `timestamp`, then
`fetched_at`); unconvertible values become null. -/
def coerce_dtypes (df : VDF) : Except VError (List VRow) :=
  if vMissing df ≠ [] then .error (.missingRequired (vMissing df))
  else if badInt64 (df.rows.map (fun r => toNumeric r.humidity_percent)) then
    .error (.nonIntegralCast "humidity_percent")
  else if badInt64 (df.rows.map (fun r => toNumeric r.timestamp)) then
    .error (.nonIntegralCast "timestamp")
  else if badInt64 (df.rows.map (fun r => toNumeric r.fetched_at)) then
    .error (.nonIntegralCast "fetched_at")
  else .ok (df.rows.map coerceVRow)

/-- One entry of the report's `problems` list.  The source builds formatted strings;
the model keeps each message's template and payload. -/
inductive Problem where
  | nulls (source col : String) (count : Nat)
  | outsideRange (source col : String) (count : Nat) (lo hi : ℚ)
  | dtypeMismatch (source col got expected : String)
  | duplicateKeys (source : String) (count : Nat) (cols : List String)
  | fetchedBeforeTs (source : String) (count : Nat)
  | sourceException (source : String) (e : VError)
  | missingFile (source path : String)
deriving DecidableEq, Repr

/-- Null test of one coerced cell, by column name. -/
def vCellIsNull (r : VRow) (col : String) : Bool :=
  if col = "city" then r.city.isNone
  else if col = "temperature" then r.temperature.isNone
  else if col = "humidity_percent" then r.humidity_percent.isNone
  else if col = "timestamp" then r.timestamp.isNone
  else if col = "fetched_at" then r.fetched_at.isNone
  else false

/-- Numeric view of one coerced cell, by column name (for the range checks). -/
def vCellNum (r : VRow) (col : String) : Option ℚ :=
  if col = "temperature" then r.temperature
  else if col = "humidity_percent" then r.humidity_percent.map (fun z => (z : ℚ))
  else if col = "timestamp" then r.timestamp.map (fun z => (z : ℚ))
  else if col = "fetched_at" then r.fetched_at.map (fun z => (z : ℚ))
  else none

/-- The non-null loop of `run_checks`: one problem per `NON_NULL` column that has
nulls. -/
def nullProblems (source : String) (rows : List VRow) : List Problem :=
  NON_NULL.filterMap (fun col =>
    let n := rows.countP (fun r => vCellIsNull r col)
    if n > 0 then some (.nulls source col n) else none)

/-- The range loop of `run_checks`: one problem per `RANGES` column that has non-null
values outside its declared bounds. -/
def rangeProblems (source : String) (rows : List VRow) : List Problem :=
  RANGES.filterMap (fun cr =>
    let bad := rows.countP (fun r =>
      match vCellNum r cr.1 with
      | some q => decide (q < cr.2.1 ∨ q > cr.2.2)
      | none => false)
    if bad > 0 then some (.outsideRange source cr.1 bad cr.2.1 cr.2.2) else none)

/-- `norm` in `run_checks`: nullable-integer and string dtype names map to their base
type before comparison. -/
def normDtype (t : String) : String := if t = "Int64" then "int64" else t

/-- The dtype each column of the coerced table actually has, fixed by the final
`astype` of `coerce_dtypes`. -/
def coercedDtype (col : String) : String :=
  if col = "city" then "string"
  else if col = "temperature" then "float64"
  else "Int64"

/-- The dtype loop of `run_checks`: one problem per expected column whose normalized
actual dtype differs from its normalized expected dtype. -/
def dtypeProblems (source : String) : List Problem :=
  EXPECTED_DTYPES.filterMap (fun ce =>
    if normDtype (coercedDtype ce.1) ≠ normDtype ce.2 then
      some (.dtypeMismatch source ce.1 (normDtype (coercedDtype ce.1)) (normDtype ce.2))
    else none)

/-- The `(city, timestamp)` key a coerced row is checked for uniqueness on. -/
def vKey (r : VRow) : Option String × Option ℤ := (r.city, r.timestamp)

/-- `df.duplicated(UNIQUE_COMBO).sum()`: the number of rows whose key already appeared
on an earlier row (total rows minus distinct keys). -/
def dupCount (rows : List VRow) : Nat :=
  (rows.map vKey).length - ((rows.map vKey).dedup).length

/-- The uniqueness check of `run_checks`. -/
def dupProblems (source : String) (rows : List VRow) : List Problem :=
  if dupCount rows > 0 then [.duplicateKeys source (dupCount rows) UNIQUE_COMBO] else []

/-- Rows violating the sanity rule `fetched_at >= timestamp` (both non-null). -/
def sanityCount (rows : List VRow) : Nat :=
  rows.countP (fun r =>
    match r.timestamp, r.fetched_at with
    | some t, some f => decide (f < t)
    | _, _ => false)

/-- The timestamp sanity check of `run_checks`. -/
def sanityProblems (source : String) (rows : List VRow) : List Problem :=
  if sanityCount rows > 0 then [.fetchedBeforeTs source (sanityCount rows)] else []

/-- `run_checks`: all five rule checks, in source order, each contributing its
problems to one list. -/
def run_checks (rows : List VRow) (source : String) : List Problem :=
  nullProblems source rows ++ rangeProblems source rows ++ dtypeProblems source ++
    dupProblems source rows ++ sanityProblems source rows

/-- One per-source summary of the report. -/
structure VSummary where
  rows : Nat
  columns : List String
  dtypes : List (String × String)
deriving DecidableEq, Repr

/-- The summary `main` records for a successfully processed source. -/
def vSummary (rows : List VRow) : VSummary :=
  { rows := rows.length
    columns := REQUIRED_COLUMNS
    dtypes := REQUIRED_COLUMNS.map (fun c => (c, coercedDtype c)) }

/-- The body of `main`'s per-source loop: a missing file or a raised exception becomes
a single problem for that source; otherwise the source is coerced, checked, and
summarized. -/
def processSource (label path : String) (src : Option VDF) :
    List Problem × Option (String × VSummary) :=
  match src with
  | none => ([.missingFile label path], none)
  | some df =>
    match coerce_dtypes df with
    | .error e => ([.sourceException label e], none)
    | .ok rows => (run_checks rows label, some (label, vSummary rows))

/-- The validation report (`generated_at`, being wall-clock I/O, is not modelled). -/
structure VReport where
  problems : List Problem
  summaries : List (String × VSummary)
deriving Repr

/-- What one Validator run produces: the report it writes (always), and the exit code
it ends the process with. -/
structure VRunOutcome where
  report : VReport
  exitCode : Nat
deriving Repr

/-- `main` of `validate_outputs.py`: process the CSV source then the parquet source
(each `Option VDF`, `none` for a missing file), accumulate all problems in that
order, always write the report, and exit 1 exactly when problems exist. -/
def validatorMain (csv parquet : Option VDF) : VRunOutcome :=
  let c := processSource "CSV" "data/clean_data.csv" csv
  let p := processSource "PARQUET" "data/clean_data.parquet" parquet
  let allProblems := c.1 ++ p.1
  { report := { problems := allProblems, summaries := c.2.toList ++ p.2.toList }
    exitCode := if allProblems.isEmpty then 0 else 1 }

/-!
## Incremental Loader (`src/src/load.py` with `src/src/models.py`)

The input table is a column list plus rows mapping column names to cells (mirroring a
dataframe with arbitrary columns).  A persisted `WeatherReading` row
(`src/src/models.py`: non-null `city`, `temperature_c`, `humidity_percent`,
`timestamp_unix`; the generated `id` is storage-assigned and not modelled) is a
`LoadRow`; the store is the list of persisted rows.  `sys.exit` is `Except`.
-/

/-- `REQUIRED_COLS_SOURCE`: source column name to DB field name. -/
def REQUIRED_COLS_SOURCE : List (String × String) :=
  [("city", "city"), ("temperature", "temperature_c"),
   ("humidity_percent", "humidity_percent"), ("timestamp", "timestamp_unix")]

/-- `REQUIRED_COLS_DB`. -/
def REQUIRED_COLS_DB : List String :=
  ["city", "temperature_c", "humidity_percent", "timestamp_unix"]

/-- A table handed to the Loader: its column names and its rows (a cell is only
meaningful for a present column). -/
structure LoadDF where
  cols : List String
  rows : List (String → JVal)

/-- `.str.strip()`: remove leading and trailing whitespace from a string. -/
def pyStrip (s : String) : String :=
  ⟨((s.data.dropWhile Char.isWhitespace).reverse.dropWhile Char.isWhitespace).reverse⟩

/-- The DB field a source column is renamed to, when it is in the rename map. -/
def srcToDb (c : String) : Option String :=
  (REQUIRED_COLS_SOURCE.find? (fun p => p.1 = c)).map (·.2)

/-- The source column a DB field is renamed from. -/
def dbToSrc (c : String) : Option String :=
  (REQUIRED_COLS_SOURCE.find? (fun p => p.2 = c)).map (·.1)

/-- The column list after `df.rename(columns=rename_map)` in `normalize`. -/
def renameCols (cols : List String) : List String :=
  cols.map (fun c => (srcToDb c).getD c)

/-- A cell of the renamed frame: a DB-named column holds the source column's cells
when the source column was present, otherwise the frame's own cells of that name. -/
def renamedCell (df : LoadDF) (r : String → JVal) (c : String) : JVal :=
  match dbToSrc c with
  | some s => if s ∈ df.cols then r s else r c
  | none => r c

/-- Fatal Loader errors: the `sys.exit` for a DB column that is still missing after
the rename (its message names the field and the available columns), and the
unsafe-cast error `astype("Int64")` raises for a non-integral float. -/
inductive LoadErr where
  | missingColumn (field : String) (available : List String)
  | castErr (col : String)
deriving DecidableEq, Repr

/-- One fully coerced, non-null row as the Loader persists it — the payload of a
`WeatherReading` (`src/src/models.py`). -/
structure LoadRow where
  city : String
  temperature_c : ℚ
  humidity_percent : ℤ
  timestamp_unix : ℤ
deriving DecidableEq, Repr

/-- The business key `(city, timestamp_unix)` of a Loader row. -/
def lkey (r : LoadRow) : String × ℤ := (r.city, r.timestamp_unix)

/-- The per-row effect of `normalize`'s coercion, null-drop and final `astype(int)`
steps: coerce `city` to a stripped string and the rest to numerics, and keep the row
only when no required field is null (used after `badInt64` ruled out non-integral
integer cells, so `.num` is the exact value). -/
def loadCoerceRow (df : LoadDF) (r : String → JVal) : Option LoadRow :=
  match (asString (renamedCell df r "city")).map pyStrip,
        toNumeric (renamedCell df r "temperature_c"),
        toNumeric (renamedCell df r "humidity_percent"),
        toNumeric (renamedCell df r "timestamp_unix") with
  | some c, some t, some h, some ts =>
    some { city := c, temperature_c := t, humidity_percent := h.num,
           timestamp_unix := ts.num }
  | _, _, _, _ => none

/-- `normalize` of `load.py`: rename source columns to DB field names; exit naming the
first DB field still missing (with the available columns); coerce the cells, casting
the integer columns to `Int64` column by column (`humidity_percent` first, then
`timestamp_unix`); drop rows with a null in any required field; deduplicate on the
business key keeping the first occurrence. -/
def loadNormalize (df : LoadDF) : Except LoadErr (List LoadRow) :=
  match REQUIRED_COLS_DB.find? (fun k => decide (k ∉ renameCols df.cols)) with
  | some k => .error (.missingColumn k (renameCols df.cols))
  | none =>
    if badInt64 (df.rows.map (fun r => toNumeric (renamedCell df r "humidity_percent"))) then
      .error (.castErr "humidity_percent")
    else if badInt64 (df.rows.map (fun r => toNumeric (renamedCell df r "timestamp_unix"))) then
      .error (.castErr "timestamp_unix")
    else .ok (dedupKeyed lkey (df.rows.filterMap (loadCoerceRow df)))

/-- The three counts `main` prints. -/
structure LoadResult where
  total : Nat
  skipped : Nat
  inserted : Nat
deriving DecidableEq, Repr

/-- `fetch_existing_keys`: every persisted `(city, timestamp_unix)` pair. -/
def fetch_existing_keys (store : List LoadRow) : List (String × ℤ) := store.map lkey

/-- The skip-existing branch of `main`: keep only rows whose key is not persisted,
bulk-insert them, and report total/skipped/inserted. -/
def loadSkip (df : List LoadRow) (store : List LoadRow) : LoadResult × List LoadRow :=
  let existing := fetch_existing_keys store
  let toInsert := df.filter (fun r => decide (lkey r ∉ existing))
  ({ total := df.length, skipped := df.length - toInsert.length,
     inserted := toInsert.length }, store ++ toInsert)

/-- The `--no-skip-existing` branch of `main`: insert the whole normalized table. -/
def loadForce (df : List LoadRow) (store : List LoadRow) : LoadResult × List LoadRow :=
  ({ total := df.length, skipped := 0, inserted := df.length }, store ++ df)

/-- `main` of `load.py` from the already-read file onward: normalize, then insert via
the selected mode (`skipExisting` is the absence of `--no-skip-existing`).  A
normalize failure exits before the session opens: nothing is inserted and the store
is unchanged. -/
def loadMain (df : LoadDF) (skipExisting : Bool) (store : List LoadRow) :
    Option LoadResult × List LoadRow :=
  match loadNormalize df with
  | .error _ => (none, store)
  | .ok rows =>
    if skipExisting then
      let rs := loadSkip rows store
      (some rs.1, rs.2)
    else
      let rs := loadForce rows store
      (some rs.1, rs.2)

/-!
## Concrete inputs used by claim instances and witnesses
-/

/-- An input record with `humidity_percent` 150 (above range). -/
def rec150 : RawRec :=
  { city := some "Austin", temperature := .null, humidity_percent := .num 150,
    timestamp := .num 1000, fetched_at := .num 1100 }

/-- An input record with `humidity_percent` -10 (below range). -/
def recNeg10 : RawRec :=
  { city := some "Boston", temperature := .null, humidity_percent := .num (-10),
    timestamp := .num 1000, fetched_at := .num 1100 }

/-- First of two input records sharing the business key `("Dallas", 1000)`. -/
def dallasRec1 : RawRec :=
  { city := some "Dallas", temperature := .null, humidity_percent := .num 67,
    timestamp := .num 1000, fetched_at := .num 1100 }

/-- Second of two input records sharing the business key `("Dallas", 1000)`. -/
def dallasRec2 : RawRec :=
  { city := some "Dallas", temperature := .null, humidity_percent := .num 80,
    timestamp := .num 1000, fetched_at := .num 1200 }

/-- An input record whose four numeric-bound fields are all unparseable strings. -/
def strRec : RawRec :=
  { city := some "Chicago", temperature := .str "abc", humidity_percent := .str "abc",
    timestamp := .str "abc", fetched_at := .str "abc" }

/-- An input record with temperature 85.0 (outside the declared range `[-60, 60]`). -/
def rec85 : RawRec :=
  { city := some "Dallas", temperature := .num 85, humidity_percent := .num 67,
    timestamp := .num 1700000000, fetched_at := .num 1700000100 }

/-- A nullable string cell as it appears in a serialized canonical table. -/
def ofOptStr : Option String → JVal
  | none => .null
  | some s => .str s

/-- A nullable numeric cell as it appears in a serialized canonical table. -/
def ofOptNum : Option ℚ → JVal
  | none => .null
  | some q => .num q

/-- Serialization of one canonical row into the table the Validator re-reads
(the five schema columns; numeric cells keep their values, and `toNumeric` treats
the CSV text form and the parquet typed form identically). -/
def canonToVRaw (c : CleanRec) : VRawRow :=
  { city := ofOptStr c.city
    temperature := ofOptNum c.temperature
    humidity_percent := ofOptNum c.humidity_percent
    timestamp := ofOptNum c.timestamp
    fetched_at := ofOptNum c.fetched_at }

/-- The Validator input produced by normalizing `[rec85]` and serializing the
canonical table. -/
def vdf85 : VDF :=
  { hasCity := true, hasTemperature := true, hasHumidity := true, hasTimestamp := true,
    hasFetchedAt := true, rows := (cleanWeatherDf [rec85]).map canonToVRaw }

/-- A canonical table from which the required `humidity_percent` column is entirely
absent. -/
def vdfNoHumidity : VDF :=
  { hasCity := true, hasTemperature := true, hasHumidity := false, hasTimestamp := true,
    hasFetchedAt := true,
    rows := [{ city := .str "Dallas", temperature := .num 27, humidity_percent := .null,
               timestamp := .num 1700000000, fetched_at := .num 1700000100 }] }

/-- A single Loader-table row with the given cells in the four source-named columns
(any other column reads as null). -/
def mkLoadRowCells (cv tv hv tsv : JVal) : String → JVal :=
  fun c =>
    if c = "city" then cv
    else if c = "temperature" then tv
    else if c = "humidity_percent" then hv
    else if c = "timestamp" then tsv
    else .null

/-- A Loader table with the four canonical source columns and the given rows. -/
def mkLoadDF (rows : List (String → JVal)) : LoadDF :=
  { cols := ["city", "temperature", "humidity_percent", "timestamp"], rows := rows }

/-- A Loader table whose columns resolve to only `city` and `temperature_c`:
`humidity_percent` (and `timestamp_unix`) cannot be resolved after the rename. -/
def dfMissingHumidity : LoadDF :=
  { cols := ["city", "temperature"],
    rows := [mkLoadRowCells (.str "Dallas") (.num 27) .null .null] }

/-- A one-row Loader table with a fully valid row. -/
def dfC1 : LoadDF :=
  mkLoadDF [mkLoadRowCells (.str "Dallas") (.num 27) (.num 67) (.num 1700000000)]

/-- The normalized table `dfC1` produces. -/
def rowsC1 : List LoadRow :=
  [{ city := "Dallas", temperature_c := 27, humidity_percent := 67,
     timestamp_unix := 1700000000 }]

/-!
## Theorems
-/

/-- Rounding to two decimals fixes every integer value. -/
lemma round2_intCast (n : ℤ) : round2 (n : ℚ) = n := by
  have h : ((100 : ℚ) * n) = ((100 * n : ℤ) : ℚ) := by push_cast; ring
  have hf : roundHalfEven ((100 : ℚ) * n) = 100 * n := by
    unfold roundHalfEven
    rw [h, Int.floor_intCast]
    simp
  rw [round2, hf]
  push_cast
  ring_nf

example : round2 85 = 85 := by
  have := round2_intCast 85
  norm_num at this
  exact this
example : round2 (2685/100) = 2685/100 := by norm_num [round2, roundHalfEven]

section DedupKeyed

variable {α κ : Type} {f : α → κ} [DecidableEq κ]

lemma mem_of_mem_dedupKeyedAux {seen : List κ} {l : List α} {a : α}
    (h : a ∈ dedupKeyedAux f seen l) : a ∈ l := by
  induction l generalizing seen with
  | nil => simp [dedupKeyedAux] at h
  | cons b t ih =>
    simp only [dedupKeyedAux] at h
    split at h
    · exact List.mem_cons_of_mem _ (ih h)
    · rcases List.mem_cons.mp h with rfl | h'
      · exact List.mem_cons_self _ _
      · exact List.mem_cons_of_mem _ (ih h')

/-- Every kept row's key is fresh, and the kept row is the first of its key. -/
lemma dedupKeyedAux_first {seen : List κ} {l : List α} {a : α}
    (h : a ∈ dedupKeyedAux f seen l) :
    f a ∉ seen ∧ l.find? (fun x => decide (f x = f a)) = some a := by
  induction l generalizing seen with
  | nil => simp [dedupKeyedAux] at h
  | cons b t ih =>
    simp only [dedupKeyedAux] at h
    by_cases hb : f b ∈ seen
    · rw [if_pos hb] at h
      obtain ⟨hnotin, hfind⟩ := ih h
      have hne : f b ≠ f a := fun he => hnotin (he ▸ hb)
      refine ⟨hnotin, ?_⟩
      rw [List.find?_cons_of_neg _ (by simp [hne]), hfind]
    · rw [if_neg hb] at h
      rcases List.mem_cons.mp h with rfl | h'
      · exact ⟨hb, by rw [List.find?_cons_of_pos _ (by simp)]⟩
      · obtain ⟨hnotin, hfind⟩ := ih h'
        have hne : f b ≠ f a := fun he => hnotin (by simp [he])
        refine ⟨fun hin => hnotin (List.mem_cons_of_mem _ hin), ?_⟩
        rw [List.find?_cons_of_neg _ (by simp [hne]), hfind]

lemma dedupKeyedAux_keys_nodup (seen : List κ) (l : List α) :
    ((dedupKeyedAux f seen l).map f).Nodup := by
  induction l generalizing seen with
  | nil => simp [dedupKeyedAux]
  | cons b t ih =>
    simp only [dedupKeyedAux]
    split
    · exact ih _
    · simp only [List.map_cons, List.nodup_cons]
      refine ⟨fun hmem => ?_, ih _⟩
      rw [List.mem_map] at hmem
      obtain ⟨a, ha, hfa⟩ := hmem
      exact (dedupKeyedAux_first ha).1 (by simp [hfa])

lemma mem_keys_dedupKeyedAux {seen : List κ} {l : List α} {k : κ} :
    k ∈ (dedupKeyedAux f seen l).map f ↔ k ∈ l.map f ∧ k ∉ seen := by
  induction l generalizing seen with
  | nil => simp [dedupKeyedAux]
  | cons b t ih =>
    simp only [dedupKeyedAux]
    by_cases hb : f b ∈ seen
    · rw [if_pos hb]
      rw [ih]
      simp only [List.map_cons, List.mem_cons]
      constructor
      · rintro ⟨h1, h2⟩
        exact ⟨Or.inr h1, h2⟩
      · rintro ⟨h1 | h1, h2⟩
        · exact absurd (h1 ▸ hb) h2
        · exact ⟨h1, h2⟩
    · rw [if_neg hb]
      by_cases hk : k = f b
      · subst hk
        simp [hb]
      · simp only [List.map_cons, List.mem_cons, ih, List.mem_cons]
        constructor
        · rintro (h1 | ⟨h1, h2⟩)
          · exact absurd h1 hk
          · exact ⟨Or.inr h1, fun hin => h2 (Or.inr hin)⟩
        · rintro ⟨h1 | h1, h2⟩
          · exact absurd h1 hk
          · exact Or.inr ⟨h1, fun hin => h2 (hin.resolve_left hk)⟩

lemma mem_of_mem_dedupKeyed {l : List α} {a : α} (h : a ∈ dedupKeyed f l) : a ∈ l :=
  mem_of_mem_dedupKeyedAux h

lemma dedupKeyed_find {l : List α} {a : α} (h : a ∈ dedupKeyed f l) :
    l.find? (fun x => decide (f x = f a)) = some a :=
  (dedupKeyedAux_first h).2

lemma dedupKeyed_keys_nodup (l : List α) : ((dedupKeyed f l).map f).Nodup :=
  dedupKeyedAux_keys_nodup _ _

lemma mem_keys_dedupKeyed {l : List α} {k : κ} :
    k ∈ (dedupKeyed f l).map f ↔ k ∈ l.map f := by
  rw [dedupKeyed, mem_keys_dedupKeyedAux]
  simp

end DedupKeyed

lemma cleanWeatherDf_perm (rows : List RawRec) :
    List.Perm (cleanWeatherDf rows) (dedupKeyed ckey (rows.map cleanRow)) :=
  List.perm_insertionSort _ _

lemma cleanWeatherDf_sorted_keys (rows : List RawRec) :
    ((cleanWeatherDf rows).map ckey).Sorted (· ≤ ·) :=
  List.pairwise_map.mpr (List.sorted_insertionSort cleanLE _)

/-- **C5.** Normalization clips `humidity_percent` into `[0, 100]`: every numeric
input value becomes its clip `min (max q 0) 100` (which lies in `[0, 100]`), never a
rejection; in particular an input of 150 reaches the canonical table as 100 and an
input of -10 as 0. -/
theorem normalizer_clips_humidity :
    (∀ (r : RawRec) (q : ℚ), r.humidity_percent = .num q →
      (cleanRow r).humidity_percent = some (min (max q 0) 100) ∧
      0 ≤ min (max q 0) 100 ∧ min (max q 0) 100 ≤ 100) ∧
    (cleanWeatherDf [rec150]).map (fun c => c.humidity_percent) = [some 100] ∧
    (cleanWeatherDf [recNeg10]).map (fun c => c.humidity_percent) = [some 0] := by
  refine ⟨fun r q h => ⟨by simp [cleanRow, h, toNumeric], ?_, ?_⟩, ?_, ?_⟩
  · exact le_min (le_max_right _ _) (by norm_num)
  · exact min_le_right _ _
  · decide
  · decide

/-- Witness for **C5**: the general clause evaluated at the record with humidity
150. -/
theorem normalizer_clips_humidity_witness :
    (cleanRow rec150).humidity_percent = some (min (max 150 0) 100) ∧
    (0 : ℚ) ≤ min (max 150 0) 100 ∧ (min (max (150 : ℚ) 0) 100) ≤ 100 :=
  normalizer_clips_humidity.1 rec150 150 rfl

/-- **C8.** The Normalizer (a total function in this model: it cannot raise) sends a
non-numeric `temperature`, `humidity_percent`, `timestamp` or `fetched_at` value to
null, and for the timestamp columns the derived ISO mirror is null as well. -/
theorem normalizer_coerces_unparseable_to_null (r : RawRec) (s : String) :
    (r.temperature = .str s → (cleanRow r).temperature = none) ∧
    (r.humidity_percent = .str s → (cleanRow r).humidity_percent = none) ∧
    (r.timestamp = .str s →
      (cleanRow r).timestamp = none ∧ (cleanRow r).timestamp_iso = none) ∧
    (r.fetched_at = .str s →
      (cleanRow r).fetched_at = none ∧ (cleanRow r).fetched_at_iso = none) := by
  refine ⟨fun h => ?_, fun h => ?_, fun h => ⟨?_, ?_⟩, fun h => ⟨?_, ?_⟩⟩ <;>
    simp [cleanRow, h, toNumeric]

/-- Witness for **C8**: all four clauses evaluated at the record whose numeric-bound
fields are the unparseable string "abc". -/
theorem normalizer_coerces_unparseable_to_null_witness :
    (cleanRow strRec).temperature = none ∧
    (cleanRow strRec).humidity_percent = none ∧
    ((cleanRow strRec).timestamp = none ∧ (cleanRow strRec).timestamp_iso = none) ∧
    ((cleanRow strRec).fetched_at = none ∧ (cleanRow strRec).fetched_at_iso = none) :=
  ⟨(normalizer_coerces_unparseable_to_null strRec "abc").1 rfl,
   (normalizer_coerces_unparseable_to_null strRec "abc").2.1 rfl,
   (normalizer_coerces_unparseable_to_null strRec "abc").2.2.1 rfl,
   (normalizer_coerces_unparseable_to_null strRec "abc").2.2.2 rfl⟩

/-- **C6.** The Normalizer's output holds exactly one row per distinct
`(city, timestamp)` key: its key list has no duplicates, it has a row for a key
exactly when some normalized input row has that key, the representative kept for a
key is the first normalized row carrying it, and the two records sharing
`("Dallas", 1000)` normalize to exactly one canonical row. -/
theorem normalizer_dedups_business_key (rows : List RawRec) :
    ((cleanWeatherDf rows).map ckey).Nodup ∧
    (∀ k, k ∈ (cleanWeatherDf rows).map ckey ↔ k ∈ (rows.map cleanRow).map ckey) ∧
    (∀ r ∈ cleanWeatherDf rows,
      (rows.map cleanRow).find? (fun s => decide (ckey s = ckey r)) = some r) ∧
    (cleanWeatherDf [dallasRec1, dallasRec2]).length = 1 := by
  have hperm := cleanWeatherDf_perm rows
  refine ⟨?_, fun k => ?_, fun r hr => ?_, by decide⟩
  · exact ((hperm.map ckey).nodup_iff).mpr (dedupKeyed_keys_nodup _)
  · rw [(hperm.map ckey).mem_iff, mem_keys_dedupKeyed]
  · exact dedupKeyed_find (hperm.mem_iff.mp hr)

/-- Witness for **C6**: at the one-record input `[dallasRec1]`, the kept
representative of the output row's key is that first (only) normalized row. -/
theorem normalizer_dedups_business_key_witness :
    ([dallasRec1].map cleanRow).find?
      (fun s => decide (ckey s = ckey (cleanRow dallasRec1))) =
      some (cleanRow dallasRec1) :=
  (normalizer_dedups_business_key [dallasRec1]).2.2.1 (cleanRow dallasRec1) (by decide)

/-- **C7.** The canonical table is sorted ascending by the `(city, timestamp)` key
(nulls last), and this pins the output key order: any two runs whose outputs carry
the same multiset of keys list them identically. -/
theorem normalizer_output_sorted (rows : List RawRec) :
    ((cleanWeatherDf rows).map ckey).Sorted (· ≤ ·) ∧
    (∀ rows' : List RawRec,
      List.Perm ((cleanWeatherDf rows).map ckey) ((cleanWeatherDf rows').map ckey) →
      (cleanWeatherDf rows).map ckey = (cleanWeatherDf rows').map ckey) := by
  refine ⟨cleanWeatherDf_sorted_keys rows, fun rows' hp => ?_⟩
  exact List.eq_of_perm_of_sorted hp (cleanWeatherDf_sorted_keys rows)
    (cleanWeatherDf_sorted_keys rows')

/-- Witness for **C7**: at the two-record Dallas input, the output keys are sorted
and the determinism clause applies reflexively. -/
theorem normalizer_output_sorted_witness :
    ((cleanWeatherDf [dallasRec1, dallasRec2]).map ckey).Sorted (· ≤ ·) ∧
    (cleanWeatherDf [dallasRec1, dallasRec2]).map ckey =
      (cleanWeatherDf [dallasRec1, dallasRec2]).map ckey :=
  ⟨(normalizer_output_sorted [dallasRec1, dallasRec2]).1,
   (normalizer_output_sorted [dallasRec1, dallasRec2]).2 _ (List.Perm.refl _)⟩

lemma cleanWeatherDf_singleton (r : RawRec) : cleanWeatherDf [r] = [cleanRow r] := by
  simp [cleanWeatherDf, dedupKeyed, dedupKeyedAux, List.insertionSort]

/-- **C3.** The report the Validator writes exists for every input and carries the
full accumulated problem list (it is produced before, and independently of, the exit
branch), and the exit code is 1 exactly when that list is non-empty, 0 exactly when
it is empty. -/
theorem validator_report_written_and_exit_signal (csv parquet : Option VDF) :
    (validatorMain csv parquet).report.problems =
      (processSource "CSV" "data/clean_data.csv" csv).1 ++
        (processSource "PARQUET" "data/clean_data.parquet" parquet).1 ∧
    ((validatorMain csv parquet).exitCode = 1 ↔
      (validatorMain csv parquet).report.problems ≠ []) ∧
    ((validatorMain csv parquet).exitCode = 0 ↔
      (validatorMain csv parquet).report.problems = []) := by
  refine ⟨rfl, ?_, ?_⟩ <;>
    · simp only [validatorMain]
      split <;> rename_i h <;> simp_all [List.isEmpty_iff]

/-- **C2** counterexample: on the concrete table `vdfNoHumidity`, which lacks the
required `humidity_percent` column, the Validator run appends exactly one problem
for that source — the Exception-tagged capture of the missing-column failure — so
the claim that no problem strings are appended for it is false. -/
theorem validator_missing_column_counterexample :
    (processSource "CSV" "data/clean_data.csv" (some vdfNoHumidity)).1 =
      [.sourceException "CSV" (.missingRequired ["humidity_percent"])] ∧
    (processSource "CSV" "data/clean_data.csv" (some vdfNoHumidity)).1 ≠ [] := by
  constructor <;> decide

/-- **C2** (amended). For every table lacking the required `humidity_percent`
column, the coercion step fails fatally with an error naming that column, so none of
the rule checks run for that source; the driver catches the failure and appends
exactly one Exception-tagged problem for that source (rather than none). -/
theorem validator_missing_column_fatal (label path : String) (df : VDF)
    (h : df.hasHumidity = false) :
    (∃ missing, coerce_dtypes df = .error (.missingRequired missing) ∧
      "humidity_percent" ∈ missing) ∧
    (processSource label path (some df)).1 =
      [.sourceException label (.missingRequired (vMissing df))] := by
  have hnot : "humidity_percent" ∉ vCols df := by
    rw [vCols, h]
    intro hmem
    simp only [List.mem_append] at hmem
    rcases hmem with ((((h1 | h1) | h1) | h1) | h1) <;> split_ifs at h1 <;> simp_all
  have hmemMissing : "humidity_percent" ∈ vMissing df := by
    rw [vMissing]
    refine List.mem_filter.mpr ⟨by simp [REQUIRED_COLUMNS, EXPECTED_DTYPES], ?_⟩
    simpa using hnot
  have hne : vMissing df ≠ [] := by
    intro he
    rw [he] at hmemMissing
    exact absurd hmemMissing (List.not_mem_nil _)
  have hcoerce : coerce_dtypes df = .error (.missingRequired (vMissing df)) := by
    rw [coerce_dtypes, if_pos hne]
  refine ⟨⟨vMissing df, hcoerce, hmemMissing⟩, ?_⟩
  simp [processSource, hcoerce]

/-- Witness for **C2**'s amended theorem: evaluated at the concrete table
`vdfNoHumidity` for the CSV source. -/
theorem validator_missing_column_fatal_witness :
    (∃ missing, coerce_dtypes vdfNoHumidity = .error (.missingRequired missing) ∧
      "humidity_percent" ∈ missing) ∧
    (processSource "CSV" "data/clean_data.csv" (some vdfNoHumidity)).1 =
      [.sourceException "CSV" (.missingRequired (vMissing vdfNoHumidity))] :=
  validator_missing_column_fatal "CSV" "data/clean_data.csv" vdfNoHumidity rfl

/-- **C4.** A record with temperature 85.0 is neither rejected nor clipped by the
Normalizer (the canonical table carries 85 unchanged, rounding being the identity
here), and validating the resulting table yields exactly one problem: the
outside-range problem for the `temperature` column. -/
theorem temperature_85_not_clipped_one_range_problem :
    (cleanWeatherDf [rec85]).map (fun c => c.temperature) = [some 85] ∧
    (processSource "CSV" "data/clean_data.csv" (some vdf85)).1 =
      [.outsideRange "CSV" "temperature" 1 (-60) 60] := by
  have h85 : round2 85 = 85 := by
    have := round2_intCast 85
    norm_num at this
    exact this
  have hclean : cleanRow rec85 =
      { city := some "Dallas", temperature := some 85, humidity_percent := some 67,
        timestamp := some 1700000000, timestamp_iso := some 1700000000,
        fetched_at := some 1700000100, fetched_at_iso := some 1700000100 } := by
    simp [cleanRow, rec85, toNumeric, h85]
    norm_num
  have hv : vdf85 =
      { hasCity := true, hasTemperature := true, hasHumidity := true,
        hasTimestamp := true, hasFetchedAt := true,
        rows := [{ city := .str "Dallas", temperature := .num 85,
                   humidity_percent := .num 67, timestamp := .num 1700000000,
                   fetched_at := .num 1700000100 }] } := by
    rw [vdf85, cleanWeatherDf_singleton, hclean]
    rfl
  refine ⟨?_, ?_⟩
  · rw [cleanWeatherDf_singleton, hclean]
    rfl
  · rw [hv]
    decide

lemma loadNormalize_keys_nodup {df : LoadDF} {rows : List LoadRow}
    (h : loadNormalize df = .ok rows) : (rows.map lkey).Nodup := by
  unfold loadNormalize at h
  split at h
  · simp at h
  · split at h
    · simp at h
    · split at h
      · simp at h
      · simp only [Except.ok.injEq] at h
        exact h ▸ dedupKeyed_keys_nodup _

lemma pyStrip_whitespace : pyStrip "   " = "" := by decide

/-- **C9.** When some required DB field is unresolvable after the rename, `normalize`
fails with the missing-field error, which names a required field that is indeed
absent and carries the available (renamed) columns; the Loader run then leaves the
store untouched and reports no insertion. -/
theorem loader_unresolvable_field_fatal (df : LoadDF) (k : String)
    (hk : k ∈ REQUIRED_COLS_DB) (hmiss : k ∉ renameCols df.cols) :
    (∃ f, f ∈ REQUIRED_COLS_DB ∧ f ∉ renameCols df.cols ∧
      loadNormalize df = .error (.missingColumn f (renameCols df.cols))) ∧
    (∀ (skipExisting : Bool) (store : List LoadRow),
      loadMain df skipExisting store = (none, store)) := by
  have hex : (REQUIRED_COLS_DB.find? (fun c => decide (c ∉ renameCols df.cols))).isSome :=
    List.find?_isSome.mpr ⟨k, hk, by simpa using hmiss⟩
  obtain ⟨f, hf⟩ := Option.isSome_iff_exists.mp hex
  have hpf : f ∉ renameCols df.cols := by simpa using List.find?_some hf
  have hmf : f ∈ REQUIRED_COLS_DB := List.mem_of_find?_eq_some hf
  have hnorm : loadNormalize df = .error (.missingColumn f (renameCols df.cols)) := by
    simp only [loadNormalize]
    rw [hf]
  exact ⟨⟨f, hmf, hpf, hnorm⟩, fun b store => by simp [loadMain, hnorm]⟩

/-- Witness for **C9**: a table whose columns resolve to only `city` and
`temperature_c` makes the Loader fail and insert nothing. -/
theorem loader_unresolvable_field_fatal_witness :
    (∃ f, f ∈ REQUIRED_COLS_DB ∧ f ∉ renameCols dfMissingHumidity.cols ∧
      loadNormalize dfMissingHumidity =
        .error (.missingColumn f (renameCols dfMissingHumidity.cols))) ∧
    loadMain dfMissingHumidity true [] = (none, []) := by
  have h := loader_unresolvable_field_fatal dfMissingHumidity "humidity_percent"
    (by decide) (by decide)
  exact ⟨h.1, h.2 true []⟩

/-- **C10.** A Loader row whose city cell is a string is retained with the city
merely stripped of surrounding whitespace — the null-drop removes only nulls, not
empty strings — so a whitespace-only city is persisted as the empty string. -/
theorem loader_retains_whitespace_city :
    (∀ (s : String) (t h ts : ℤ),
      loadNormalize (mkLoadDF [mkLoadRowCells (.str s) (.num t) (.num h) (.num ts)]) =
        .ok [{ city := pyStrip s, temperature_c := t, humidity_percent := h,
               timestamp_unix := ts }]) ∧
    pyStrip "   " = "" := by
  refine ⟨fun s t h ts => ?_, pyStrip_whitespace⟩
  simp [loadNormalize, loadCoerceRow, mkLoadDF, mkLoadRowCells, renameCols,
    renamedCell, srcToDb, dbToSrc, REQUIRED_COLS_SOURCE, REQUIRED_COLS_DB, badInt64,
    toNumeric, asString, dedupKeyed, dedupKeyedAux, lkey]

/-- **C1.** For every table the Loader has validated (normalized to `rows`) and every
store containing none of its business keys, two successive skip-existing runs insert
each distinct `(city, timestamp_unix)` key exactly once: the first inserts the whole
deduplicated set and skips nothing, the second inserts zero rows and skips
`inserted₁` rows, and `inserted₁ + inserted₂` is the distinct-key count
(`rows.length`, the keys being duplicate-free after normalization). -/
theorem loader_skip_existing_idempotent (df : LoadDF) (rows store : List LoadRow)
    (hnorm : loadNormalize df = .ok rows)
    (hnew : ∀ r ∈ rows, lkey r ∉ fetch_existing_keys store) :
    loadMain df true store =
      (some { total := rows.length, skipped := 0, inserted := rows.length },
        store ++ rows) ∧
    loadMain df true (store ++ rows) =
      (some { total := rows.length, skipped := rows.length, inserted := 0 },
        store ++ rows) ∧
    rows.length = ((rows.map lkey).dedup).length := by
  have hnodup : (rows.map lkey).Nodup := loadNormalize_keys_nodup hnorm
  have hfilter1 :
      rows.filter (fun r => decide (lkey r ∉ fetch_existing_keys store)) = rows :=
    List.filter_eq_self.mpr (fun r hr => by simpa using hnew r hr)
  have hfilter2 :
      rows.filter (fun r => decide (lkey r ∉ fetch_existing_keys (store ++ rows))) =
        [] := by
    refine List.filter_eq_nil_iff.mpr (fun r hr => ?_)
    simp only [fetch_existing_keys, List.map_append, List.mem_append,
      decide_eq_true_eq, not_not]
    exact Or.inr (List.mem_map_of_mem lkey hr)
  have hmain : ∀ st : List LoadRow, loadMain df true st =
      (some (loadSkip rows st).1, (loadSkip rows st).2) := by
    intro st
    simp [loadMain, hnorm]
  have hskip1 : loadSkip rows store =
      ({ total := rows.length, skipped := 0, inserted := rows.length },
        store ++ rows) := by
    simp only [loadSkip]
    rw [hfilter1, Nat.sub_self]
  have hskip2 : loadSkip rows (store ++ rows) =
      ({ total := rows.length, skipped := rows.length, inserted := 0 },
        store ++ rows) := by
    simp only [loadSkip]
    rw [hfilter2]
    simp
  refine ⟨?_, ?_, ?_⟩
  · rw [hmain, hskip1]
  · rw [hmain, hskip2]
  · rw [List.dedup_eq_self.mpr hnodup, List.length_map]

/-- Witness for **C1**: the one-row table `dfC1` over the empty store. -/
theorem loader_skip_existing_idempotent_witness :
    loadMain dfC1 true [] =
      (some { total := rowsC1.length, skipped := 0, inserted := rowsC1.length },
        [] ++ rowsC1) ∧
    loadMain dfC1 true ([] ++ rowsC1) =
      (some { total := rowsC1.length, skipped := rowsC1.length, inserted := 0 },
        [] ++ rowsC1) ∧
    rowsC1.length = ((rowsC1.map lkey).dedup).length :=
  loader_skip_existing_idempotent dfC1 rowsC1 [] (by rfl) (by decide)
